import Mathlib

/-!
Verification of scripts/generate_enum_source.py (GNOME/libgdata).

The script is a thin wrapper around the external glib-mkenums generator:
it validates arguments, assembles six template fragments, invokes the
generator as a subprocess, applies an ordered list of regex replacement
pairs to the captured output, and writes the result into one or more
output directories.

The embedding below follows the Python source line by line.  Python
values of type str become String, lists become List, values that may be
None become Option.  The filesystem is modelled as a record holding a
directory predicate and an association list of file contents; sys.exit
and uncaught exceptions become constructors of an Outcome type.  The
regular-expression engine of the re module and the external generator
are parameters of the model; concrete instances (a literal-string
engine, concrete generators) are supplied when theorems are evaluated
on closed inputs.
-/

namespace GenerateEnumSource

/-- Parsed command-line arguments, as produced by create_parser in the
script: positional output_file, required repeated sources, optional
replace pairs (argparse action append with nargs 2), optional
source-directory, optional list of out-directories. -/
structure Args where
  output_file : String
  sources : List String
  replace : Option (List (String × String))
  source_dir : Option String
  out_dir : Option (List String)

/-- Filesystem state: which paths are directories (unchanged by the
script, which only writes regular files) and an association list of
file contents, most recent write first. -/
structure FS where
  isdir : String → Bool
  files : List (String × String)

/-- Model of open(path, mode w+) followed by f.write(output): create or
truncate the file at the given path with the given contents. -/
def FS.write (fs : FS) (p c : String) : FS :=
  { isdir := fs.isdir, files := (p, c) :: fs.files }

/-- Contents of the file at a path, if one has been written. -/
def FS.read (fs : FS) (p : String) : Option String :=
  (fs.files.find? (fun e => e.1 == p)).map Prod.snd

/-- Model of os.path.join for POSIX paths with two components, as used
by the script: an absolute second component wins, otherwise a single
separator is inserted unless one is already present. -/
def pathJoin (a b : String) : String :=
  if b.startsWith ("/") then b
  else if a == "" || a.endsWith ("/") then a ++ b
  else a ++ "/" ++ b

/-- How one run of the script can end: success, sys.exit(code) after
printing an optional message with print (which writes to standard
output, not standard error), or an uncaught Python exception, which
terminates the interpreter with a traceback. -/
inductive Outcome where
  | success (fs : FS)
  | exited (code : Int) (printedToStdout : Option String) (fs : FS)
  | crashed (exn : String) (fs : FS)

/-- Message printed when the --source-dir assertion fails. -/
def sourceDirMsg : String := "Argument given to --source-dir is not a directory."

/-- Message printed when an --out-dir assertion fails. -/
def outDirMsg : String := "One (or more) of the argument(s) given to --out-dir is not a directory."

/-- Exception raised by os.path.isdir(None) when --source-dir is
omitted: os.stat rejects None with a TypeError, which the except clause
(catching only AssertionError) does not handle. -/
def isdirNoneTypeError : String :=
  "TypeError: stat: path should be string, bytes, os.PathLike or integer, not NoneType"

/-- Exception raised by subprocess.Popen when the first element of the
command list is None, that is when shutil.which found no executable. -/
def popenNoneTypeError : String :=
  "TypeError: expected str, bytes or os.PathLike object, not NoneType"

/-- Exception raised by bytes.decode when the captured output is not
valid UTF-8. -/
def unicodeDecodeError : String :=
  "UnicodeDecodeError: utf-8 codec cannot decode byte"

/-- The fixed macro block appended to the file-header fragment,
verbatim from the triple-quoted literal in get_template_sections. -/
def macroBlock : String :=
  "\n        #define C_ENUM(v) ((gint) v)\n        #define C_FLAGS(v) ((gint) v)\n    "

/-- File-header fragment: one include directive per source, in input
order, accumulated exactly as the Python for-loop does, followed by the
fixed macro block. -/
def get_fhead (sources : List String) : String :=
  (sources.foldl (fun acc s => acc ++ "#include \"" ++ s ++ "\"\n") "") ++ macroBlock

/-- File-production fragment, verbatim. -/
def fprodTemplate : String := "\n/* enumerations from \"@basename@\" */\n"

/-- Value-header fragment, verbatim (braces of the C text written as
hex escapes). -/
def vheadTemplate : String :=
  "\n        GType\n        @enum_name@_get_type (void)\n            \x7b\n                static GType etype = 0;\n                if (etype == 0) \x7b\n                    static const G@Type@Value values[] = \x7b\n    "

/-- Value-production fragment, verbatim. -/
def vprodTemplate : String :=
  "\n\x7b @VALUENAME@, \"@VALUENAME@\", \"@valuenick@\" \x7d,\n"

/-- Value-tail fragment, verbatim. -/
def vtailTemplate : String :=
  "\n            \x7b 0, NULL, NULL \x7d\n        \x7d;\n        etype = g_@type@_register_static (\"@EnumName@\", values);\n      \x7d\n      return etype;\n    \x7d\n    "

/-- File-tail fragment, verbatim. -/
def ftailTemplate : String := "G_END_DECLS"

/-- The six template fragments returned by get_template_sections, in
the order fhead, fprod, ftail, vhead, vprod, vtail. -/
def get_template_sections (args : Args) : String × String × String × String × String × String :=
  (get_fhead args.sources, fprodTemplate, ftailTemplate, vheadTemplate, vprodTemplate, vtailTemplate)

/-- True for a UTF-8 continuation byte. -/
def isCont (b : Nat) : Bool := 0x80 ≤ b && b ≤ 0xBF

/-- Decoder for bytes.decode with the utf-8 codec in strict mode:
returns the decoded characters, or none exactly when the byte sequence
is not well-formed UTF-8 (RFC 3629: no overlong forms, no surrogate
code points, nothing above U+10FFFF). -/
def utf8DecodeAux : List Nat → Option (List Char)
  | [] => some []
  | b :: rest =>
    if b ≤ 0x7F then
      (utf8DecodeAux rest).map (fun cs => Char.ofNat b :: cs)
    else if 0xC2 ≤ b && b ≤ 0xDF then
      match rest with
      | c1 :: rest1 =>
        if isCont c1 then
          (utf8DecodeAux rest1).map
            (fun cs => Char.ofNat ((b - 0xC0) * 0x40 + (c1 - 0x80)) :: cs)
        else none
      | [] => none
    else if b == 0xE0 then
      match rest with
      | c1 :: c2 :: rest2 =>
        if (0xA0 ≤ c1 && c1 ≤ 0xBF) && isCont c2 then
          (utf8DecodeAux rest2).map
            (fun cs => Char.ofNat ((b - 0xE0) * 0x1000 + (c1 - 0x80) * 0x40 + (c2 - 0x80)) :: cs)
        else none
      | _ => none
    else if (0xE1 ≤ b && b ≤ 0xEC) || b == 0xEE || b == 0xEF then
      match rest with
      | c1 :: c2 :: rest2 =>
        if isCont c1 && isCont c2 then
          (utf8DecodeAux rest2).map
            (fun cs => Char.ofNat ((b - 0xE0) * 0x1000 + (c1 - 0x80) * 0x40 + (c2 - 0x80)) :: cs)
        else none
      | _ => none
    else if b == 0xED then
      match rest with
      | c1 :: c2 :: rest2 =>
        if (0x80 ≤ c1 && c1 ≤ 0x9F) && isCont c2 then
          (utf8DecodeAux rest2).map
            (fun cs => Char.ofNat ((b - 0xE0) * 0x1000 + (c1 - 0x80) * 0x40 + (c2 - 0x80)) :: cs)
        else none
      | _ => none
    else if b == 0xF0 then
      match rest with
      | c1 :: c2 :: c3 :: rest3 =>
        if (0x90 ≤ c1 && c1 ≤ 0xBF) && isCont c2 && isCont c3 then
          (utf8DecodeAux rest3).map
            (fun cs => Char.ofNat ((b - 0xF0) * 0x40000 + (c1 - 0x80) * 0x1000 + (c2 - 0x80) * 0x40 + (c3 - 0x80)) :: cs)
        else none
      | _ => none
    else if 0xF1 ≤ b && b ≤ 0xF3 then
      match rest with
      | c1 :: c2 :: c3 :: rest3 =>
        if isCont c1 && isCont c2 && isCont c3 then
          (utf8DecodeAux rest3).map
            (fun cs => Char.ofNat ((b - 0xF0) * 0x40000 + (c1 - 0x80) * 0x1000 + (c2 - 0x80) * 0x40 + (c3 - 0x80)) :: cs)
        else none
      | _ => none
    else if b == 0xF4 then
      match rest with
      | c1 :: c2 :: c3 :: rest3 =>
        if (0x80 ≤ c1 && c1 ≤ 0x8F) && isCont c2 && isCont c3 then
          (utf8DecodeAux rest3).map
            (fun cs => Char.ofNat ((b - 0xF0) * 0x40000 + (c1 - 0x80) * 0x1000 + (c2 - 0x80) * 0x40 + (c3 - 0x80)) :: cs)
        else none
      | _ => none
    else none

/-- Decode a byte list to a string, or none on a decode error. -/
def utf8Decode (bs : List Nat) : Option String :=
  (utf8DecodeAux bs).map (fun cs => String.mk cs)

/-- Observable behaviour of the external glib-mkenums process for one
run: the bytes it writes to standard output and its exit status, both
as functions of the full command line. -/
structure Generator where
  stdoutBytes : List String → List Nat
  returncode : List String → Int

/-- Process environment of one invocation: the directory of the script
itself (get_script_path), the result of shutil.which on glib-mkenums,
and the external generator. -/
structure Env where
  scriptPath : String
  which_mkenums : Option String
  generator : Generator

/-- Source-path resolution, lines 59 to 62 of the script: join every
source with --source-dir when it was given, otherwise with the script
directory.  In the script the second branch is unreachable because the
assertion above it has already crashed on None; it is kept here exactly
as written. -/
def resolveSources (env : Env) (args : Args) : List String :=
  match args.source_dir with
  | some d => args.sources.map (fun s => pathJoin d s)
  | none => args.sources.map (fun s => pathJoin env.scriptPath s)

/-- The full command list handed to subprocess.Popen. -/
def mkCommand (tool : String) (fhead fprod ftail vhead vprod vtail : String)
    (sources : List String) : List String :=
  [tool, "--fhead", fhead, "--fprod", fprod, "--ftail", ftail,
   "--vhead", vhead, "--vprod", vprod, "--vtail", vtail] ++ sources

/-- Embedding of create_enum_source.  Steps, in source order: the
assertion path.isdir(args.source_dir) == True, which raises TypeError
when --source-dir was omitted (isdir(None) is a TypeError, not an
AssertionError) and prints sourceDirMsg and exits -1 when the directory
does not exist; source resolution; the Popen call, which raises
TypeError when shutil.which returned None; communicate, whose second
component is always None because stderr was not redirected, so the
raise-error branch is dead and the exit status is never consulted; and
output.decode, which raises UnicodeDecodeError on invalid UTF-8.
Returns the decoded text, or the terminal Outcome. -/
def create_enum_source (env : Env) (fs : FS) (args : Args)
    (fhead fprod ftail vhead vprod vtail : String) : Except Outcome String :=
  match args.source_dir with
  | none => .error (.crashed isdirNoneTypeError fs)
  | some d =>
    if fs.isdir d then
      let sources := resolveSources env args
      match env.which_mkenums with
      | none => .error (.crashed popenNoneTypeError fs)
      | some tool =>
        let cmd := mkCommand tool fhead fprod ftail vhead vprod vtail sources
        let output := env.generator.stdoutBytes cmd
        match utf8Decode output with
        | some text => .ok text
        | none => .error (.crashed unicodeDecodeError fs)
    else .error (.exited (-1) (some sourceDirMsg) fs)

/-- Interface to the re module as the script uses it: compileOk p r is
false exactly when re.sub(p, r, s) raises re.error (which depends only
on the pattern and the replacement, never on the subject string), and
sub p r s is the substituted result otherwise. -/
structure RegexEngine where
  compileOk : String → String → Bool
  sub : String → String → String → String

/-- The replacement loop of the main block: apply each pair with re.sub
in order, each over the result of the previous, stopping with none at
the first pair whose pattern or replacement does not compile. -/
def applyReplaceList (eng : RegexEngine) : List (String × String) → String → Option String
  | [], text => some text
  | (p, r) :: rest, text =>
    if eng.compileOk p r then applyReplaceList eng rest (eng.sub p r text)
    else none

/-- Post-processing step of the main block: nothing happens when
--replace was absent; otherwise the replacement loop runs and a re.error
becomes sys.exit(-1) with no message printed. -/
def postProcess (eng : RegexEngine) (replace : Option (List (String × String)))
    (text : String) (fs : FS) : Except Outcome String :=
  match replace with
  | none => .ok text
  | some reps =>
    match applyReplaceList eng reps text with
    | some t => .ok t
    | none => .error (.exited (-1) none fs)

/-- Write the output into every out-directory under the output file
name, the fold mirroring the Python write loop. -/
def writeAll (file output : String) (dirs : List String) (fs : FS) : FS :=
  dirs.foldl (fun f d => f.write (pathJoin d file) output) fs

/-- Embedding of write_enum_source_file: when --out-dir was given,
first assert isdir on every entry (the whole validation loop precedes
the write loop, so one bad entry aborts before anything is written),
printing outDirMsg and exiting -1 on failure; otherwise write into the
script directory. -/
def write_enum_source_file (env : Env) (fs : FS) (args : Args) (output : String) : Outcome :=
  match args.out_dir with
  | some dirs =>
    if dirs.all fs.isdir then
      .success (writeAll args.output_file output dirs fs)
    else .exited (-1) (some outDirMsg) fs
  | none => .success (fs.write (pathJoin env.scriptPath args.output_file) output)

/-- The main block of the script after argument parsing: build the six
template fragments, run create_enum_source, apply the replacement
pairs, write the result. -/
def script_main (eng : RegexEngine) (env : Env) (args : Args) (fs : FS) : Outcome :=
  match get_template_sections args with
  | (fhead, fprod, ftail, vhead, vprod, vtail) =>
    match create_enum_source env fs args fhead fprod ftail vhead vprod vtail with
    | .error o => o
    | .ok output =>
      match postProcess eng args.replace output fs with
      | .error o => o
      | .ok output2 => write_enum_source_file env fs args output2

/-! Concrete instances used when theorems are evaluated on closed
inputs. -/

/-- Characters with a special meaning to the re module; a pattern or
replacement without any of them always compiles and behaves as a
literal string. -/
def noMeta (p : String) : Bool :=
  p.data.all (fun c =>
    !(['.', '^', '$', '*', '+', '?', '\\', '|', '(', ')', '[', ']', '\x7b', '\x7d'].contains c))

/-- A concrete regex engine for closed evaluations: patterns and
replacements free of metacharacters compile and substitute as literal
text (for such inputs re.sub replaces every non-overlapping occurrence
left to right, which is what String.replace does); anything containing
a metacharacter is treated as failing to compile, as an unbalanced
parenthesis does in re. -/
def litEngine : RegexEngine :=
  { compileOk := fun p r => noMeta p && noMeta r,
    sub := fun p r s => s.replace p r }

/-- The include directives of the file-header, one per source in input
order. -/
def includeLines : List String → String
  | [] => ""
  | s :: rest => "#include \"" ++ s ++ "\"\n" ++ includeLines rest

/-! Helper lemmas. -/

theorem fhead_foldl_aux (sources : List String) (init : String) :
    sources.foldl (fun acc s => acc ++ "#include \"" ++ s ++ "\"\n") init =
      init ++ includeLines sources := by
  induction sources generalizing init with
  | nil => simp [includeLines]
  | cons s rest ih =>
      simp only [List.foldl, includeLines]
      rw [ih]
      simp [String.append_assoc]

theorem applyReplaceList_all_ok (eng : RegexEngine) (reps : List (String × String))
    (text : String) (hok : ∀ pr ∈ reps, eng.compileOk pr.1 pr.2 = true) :
    applyReplaceList eng reps text =
      some (reps.foldl (fun acc pr => eng.sub pr.1 pr.2 acc) text) := by
  induction reps generalizing text with
  | nil => rfl
  | cons pr rest ih =>
      have h1 : eng.compileOk pr.1 pr.2 = true := hok pr (List.mem_cons_self pr rest)
      simp only [applyReplaceList, List.foldl, h1, if_pos]
      exact ih (eng.sub pr.1 pr.2 text) (fun q hq => hok q (List.mem_cons_of_mem pr hq))

theorem applyReplaceList_has_bad (eng : RegexEngine) (reps : List (String × String))
    (text : String) (hbad : ∃ pr ∈ reps, eng.compileOk pr.1 pr.2 = false) :
    applyReplaceList eng reps text = none := by
  induction reps generalizing text with
  | nil => simp at hbad
  | cons pr rest ih =>
      obtain ⟨p, r⟩ := pr
      obtain ⟨q, hq, hqbad⟩ := hbad
      by_cases h1 : eng.compileOk p r = true
      · simp only [applyReplaceList, h1, if_pos]
        apply ih
        rcases List.mem_cons.mp hq with heq | hmem
        · subst heq
          simp [hqbad] at h1
        · exact ⟨q, hmem, hqbad⟩
      · simp only [applyReplaceList]
        simp [h1]

theorem FS.isdir_write (fs : FS) (p c : String) : (fs.write p c).isdir = fs.isdir := rfl

theorem FS.read_write (fs : FS) (p c q : String) :
    (fs.write p c).read q = if p == q then some c else fs.read q := by
  by_cases h : (p == q) = true
  · simp [FS.read, FS.write, List.find?_cons_of_pos, h]
  · simp only [Bool.not_eq_true] at h
    simp [FS.read, FS.write, List.find?_cons_of_neg, h]

theorem isdir_writeAll (file output : String) (dirs : List String) (fs : FS) :
    (writeAll file output dirs fs).isdir = fs.isdir := by
  induction dirs generalizing fs with
  | nil => rfl
  | cons d ds ih =>
      simp only [writeAll, List.foldl]
      exact ih (fs.write (pathJoin d file) output)

theorem read_writeAll (file output : String) (dirs : List String) (fs : FS) (q : String) :
    (writeAll file output dirs fs).read q =
      if dirs.any (fun dd => pathJoin dd file == q) then some output else fs.read q := by
  induction dirs generalizing fs with
  | nil => simp [writeAll]
  | cons d ds ih =>
      simp only [writeAll, List.foldl, List.any_cons]
      rw [show List.foldl (fun f dd => f.write (pathJoin dd file) output)
            (fs.write (pathJoin d file) output) ds =
          writeAll file output ds (fs.write (pathJoin d file) output) from rfl]
      rw [ih, FS.read_write]
      by_cases h1 : (pathJoin d file == q) = true
      · by_cases h2 : (ds.any fun dd => pathJoin dd file == q) = true <;> simp [h1, h2]
      · by_cases h2 : (ds.any fun dd => pathJoin dd file == q) = true <;> simp [h1, h2]

/-- Preservation of the directory structure by the writer: the script
only ever creates or truncates regular files. -/
theorem write_enum_source_file_isdir (env : Env) (args : Args) (fs fs1 : FS) (output : String)
    (h : write_enum_source_file env fs args output = Outcome.success fs1) :
    fs1.isdir = fs.isdir := by
  rcases hod : args.out_dir with _ | dirs
  · simp [write_enum_source_file, hod] at h
    rw [← h]
    rfl
  · cases hall : dirs.all fs.isdir
    · simp [write_enum_source_file, hod, hall] at h
    · simp [write_enum_source_file, hod, hall] at h
      rw [← h]
      exact isdir_writeAll args.output_file output dirs fs

/-- Rewriting the same content a second time changes no file contents:
the writer is idempotent on a filesystem it has just produced. -/
theorem write_enum_source_file_idem (env : Env) (args : Args) (fs fs1 : FS) (output : String)
    (h : write_enum_source_file env fs args output = Outcome.success fs1) :
    ∃ fs2, write_enum_source_file env fs1 args output = Outcome.success fs2 ∧
      ∀ q, fs2.read q = fs1.read q := by
  have hisd := write_enum_source_file_isdir env args fs fs1 output h
  rcases hod : args.out_dir with _ | dirs
  · simp [write_enum_source_file, hod] at h
    refine ⟨fs1.write (pathJoin env.scriptPath args.output_file) output, ?_, fun q => ?_⟩
    · simp [write_enum_source_file, hod]
    · rw [FS.read_write]
      by_cases hq : (pathJoin env.scriptPath args.output_file == q) = true
      · rw [if_pos hq, ← h, FS.read_write, if_pos hq]
      · rw [if_neg hq]
  · have hall1 : dirs.all fs.isdir = true := by
      by_contra hc
      rw [Bool.not_eq_true] at hc
      simp [write_enum_source_file, hod, hc] at h
    simp [write_enum_source_file, hod, hall1] at h
    have hall2 : dirs.all fs1.isdir = true := by rw [hisd]; exact hall1
    refine ⟨writeAll args.output_file output dirs fs1, ?_, fun q => ?_⟩
    · simp [write_enum_source_file, hod, hall2]
    · rw [read_writeAll]
      by_cases hq : (dirs.any fun dd => pathJoin dd args.output_file == q) = true
      · rw [if_pos hq, ← h, read_writeAll, if_pos hq]
      · rw [if_neg hq]

/-! Concrete fixtures for closed evaluations of the model. -/

/-- A filesystem whose only directories are /src and /out, with no
files. -/
def cFS : FS := { isdir := fun p => p == "/src" || p == "/out", files := [] }

/-- A generator that prints the two bytes of the ASCII text hi and
succeeds. -/
def cGen : Generator := { stdoutBytes := fun _ => [0x68, 0x69], returncode := fun _ => 0 }

/-- The same generator output, but with a failing exit status. -/
def cGenFail : Generator := { stdoutBytes := fun _ => [0x68, 0x69], returncode := fun _ => 1 }

/-- A generator whose output byte 0xFF is not valid UTF-8. -/
def cGenBadBytes : Generator := { stdoutBytes := fun _ => [0xFF], returncode := fun _ => 0 }

/-- Environment with the tool present and the well-behaved generator. -/
def cEnv : Env :=
  { scriptPath := "/app/scripts", which_mkenums := some "/usr/bin/glib-mkenums", generator := cGen }

/-- Environment where shutil.which found no glib-mkenums. -/
def cEnvNoTool : Env := { cEnv with which_mkenums := none }

/-- Environment whose generator emits invalid UTF-8. -/
def cEnvBadBytes : Env := { cEnv with generator := cGenBadBytes }

/-- A well-formed invocation: one source, no replacements, valid
source and output directories. -/
def cArgs : Args :=
  { output_file := "enums.c", sources := ["a.h"], replace := none,
    source_dir := some "/src", out_dir := some ["/out"] }

/-- The same invocation with --source-dir omitted. -/
def cArgsNoSrcDir : Args := { cArgs with source_dir := none }

/-- The same invocation with a second, nonexistent output directory
after the valid one. -/
def cArgsBadOut : Args := { cArgs with out_dir := some ["/out", "/bad"] }

/-- The same invocation with a replacement whose pattern is an
unbalanced parenthesis. -/
def cArgsBadRep : Args := { cArgs with replace := some [("(", "X")] }

/-- The same invocation with --source-dir pointing at a path that is
not a directory. -/
def cArgsBadSrc : Args := { cArgs with source_dir := some "/nosuch" }

/-- Two replacement pairs whose order matters: the second pattern
matches text produced by the first. -/
def cReps : List (String × String) := [("GTypeFoo", "GTypeBar"), ("GTypeBar", "GTypeQux")]

/-! Claim theorems. -/

/-- C1: the claim says that with --source-dir omitted the sources are
resolved against the script directory and the run proceeds normally.
The code instead evaluates path.isdir(None) in the assertion of
create_enum_source, which raises a TypeError that the except clause
(which catches only AssertionError) does not handle: every invocation
without --source-dir crashes before the default-resolution branch can
run.  This theorem evaluates the code at such inputs. -/
theorem c1_omitted_sourcedir_crashes (eng : RegexEngine) (env : Env) (args : Args) (fs : FS)
    (h : args.source_dir = none) :
    script_main eng env args fs = Outcome.crashed isdirNoneTypeError fs := by
  simp [script_main, get_template_sections, create_enum_source, h]

/-- C1 witness: a concrete invocation with --source-dir omitted. -/
theorem c1_omitted_sourcedir_crashes_witness :
    script_main litEngine cEnv cArgsNoSrcDir cFS = Outcome.crashed isdirNoneTypeError cFS :=
  c1_omitted_sourcedir_crashes litEngine cEnv cArgsNoSrcDir cFS rfl

/-- C2: the claim says a missing generator executable produces an
explicit ToolNotFound failure before any subprocess is spawned.  In
the code shutil.which returns None, which is placed at the head of the
Popen command list; Popen then raises a TypeError, an uncaught crash
with a traceback rather than a clear diagnostic.  This theorem
evaluates the code on environments where the tool is absent. -/
theorem c2_missing_tool_crashes (eng : RegexEngine) (env : Env) (args : Args) (fs : FS)
    (d : String) (hsd : args.source_dir = some d) (hdir : fs.isdir d = true)
    (htool : env.which_mkenums = none) :
    script_main eng env args fs = Outcome.crashed popenNoneTypeError fs := by
  simp [script_main, get_template_sections, create_enum_source, hsd, hdir, htool]

/-- C2 witness: a concrete invocation with glib-mkenums absent from
the search path. -/
theorem c2_missing_tool_crashes_witness :
    script_main litEngine cEnvNoTool cArgs cFS = Outcome.crashed popenNoneTypeError cFS :=
  c2_missing_tool_crashes litEngine cEnvNoTool cArgs cFS "/src" rfl rfl rfl

/-- C4: post-processing is the left-to-right sequential application of
the substitutions, each pair operating on the result of the previous
one (a left fold), and an absent or empty replacement list leaves the
generated text unchanged. -/
theorem c4_replacements_sequential (eng : RegexEngine) (reps : List (String × String))
    (text : String) (fs : FS)
    (hok : ∀ pr ∈ reps, eng.compileOk pr.1 pr.2 = true) :
    postProcess eng (some reps) text fs =
      Except.ok (reps.foldl (fun acc pr => eng.sub pr.1 pr.2 acc) text) ∧
    postProcess eng none text fs = Except.ok text ∧
    postProcess eng (some []) text fs = Except.ok text := by
  refine ⟨?_, rfl, rfl⟩
  simp only [postProcess, applyReplaceList_all_ok eng reps text hok]

/-- C4 witness: two order-sensitive literal replacement pairs, the
second pattern matching only text produced by the first. -/
theorem c4_replacements_sequential_witness :
    postProcess litEngine (some cReps) ("x GTypeFoo y") cFS =
      Except.ok (cReps.foldl (fun acc pr => litEngine.sub pr.1 pr.2 acc) ("x GTypeFoo y")) ∧
    postProcess litEngine none ("x GTypeFoo y") cFS = Except.ok ("x GTypeFoo y") ∧
    postProcess litEngine (some []) ("x GTypeFoo y") cFS = Except.ok ("x GTypeFoo y") :=
  c4_replacements_sequential litEngine cReps ("x GTypeFoo y") cFS (by decide)

/-- C5: if any --out-dir entry is not an existing directory the writer
exits with the InvalidOutDir message before writing anything: the
whole validation loop precedes the write loop, so the returned
filesystem is exactly the input filesystem, even when other entries of
the same list are valid directories. -/
theorem c5_outdir_all_or_nothing (env : Env) (fs : FS) (args : Args) (output : String)
    (dirs : List String) (hdirs : args.out_dir = some dirs)
    (hbad : ∃ d ∈ dirs, fs.isdir d = false) :
    write_enum_source_file env fs args output = Outcome.exited (-1) (some outDirMsg) fs := by
  have hall : dirs.all fs.isdir = false := by
    rw [List.all_eq_false]
    obtain ⟨d, hd, hdf⟩ := hbad
    exact ⟨d, hd, by simp [hdf]⟩
  simp [write_enum_source_file, hdirs, hall]

/-- C5 witness: an out-dir list with a valid directory before a
nonexistent one; nothing is written to the valid one either. -/
theorem c5_outdir_all_or_nothing_witness :
    write_enum_source_file cEnv cFS cArgsBadOut ("text") =
      Outcome.exited (-1) (some outDirMsg) cFS :=
  c5_outdir_all_or_nothing cEnv cFS cArgsBadOut ("text") ["/out", "/bad"] rfl (by decide)

/-- C8: for sources a.h the file-header fragment is the include
directive followed verbatim by the fixed macro block, and in general
it is one include directive per source, in input order, followed by
that block. -/
theorem c8_fhead_structure :
    get_fhead ["a.h"] = "#include \"a.h\"\n" ++ macroBlock ∧
    ∀ sources : List String, get_fhead sources = includeLines sources ++ macroBlock := by
  refine ⟨rfl, fun sources => ?_⟩
  unfold get_fhead
  rw [fhead_foldl_aux]
  simp [String.empty_append]

/-- C8 witness: the general conjunct instantiated at a two-source
list. -/
theorem c8_fhead_structure_witness :
    get_fhead ["x.h", "y.h"] = includeLines ["x.h", "y.h"] ++ macroBlock :=
  c8_fhead_structure.2 ["x.h", "y.h"]

/-- C3: the claim says a failing generator exit status yields a
GenerationFailed error and no output file.  In the code, communicate()
returns the pair (stdout, None) because stderr was never redirected,
so the raise-error branch is dead and the exit status is never read:
the whole run is insensitive to the returncode function of the
generator, and with a generator that always exits 1 the output file is
still written.  First conjunct: two environments identical except for
the generator exit status produce identical outcomes.  Second
conjunct: a concrete run whose generator fails still succeeds and
writes the file. -/
theorem c3_exit_status_ignored (eng : RegexEngine) (sp : String) (wm : Option String)
    (sb : List String → List Nat) (rc1 rc2 : List String → Int) (args : Args) (fs : FS) :
    script_main eng ⟨sp, wm, ⟨sb, rc1⟩⟩ args fs = script_main eng ⟨sp, wm, ⟨sb, rc2⟩⟩ args fs ∧
    script_main litEngine { cEnv with generator := cGenFail } cArgs cFS =
      Outcome.success (writeAll ("enums.c") ("hi") ["/out"] cFS) := by
  exact ⟨rfl, rfl⟩

/-- C3 witness: the general conjunct instantiated at a pair of
concrete environments differing only in the generator exit status. -/
theorem c3_exit_status_ignored_witness :
    script_main litEngine
        ⟨"/app/scripts", some "/usr/bin/glib-mkenums", ⟨fun _ => [0x68, 0x69], fun _ => 0⟩⟩
        cArgs cFS =
      script_main litEngine
        ⟨"/app/scripts", some "/usr/bin/glib-mkenums", ⟨fun _ => [0x68, 0x69], fun _ => 1⟩⟩
        cArgs cFS ∧
    script_main litEngine { cEnv with generator := cGenFail } cArgs cFS =
      Outcome.success (writeAll ("enums.c") ("hi") ["/out"] cFS) :=
  c3_exit_status_ignored litEngine "/app/scripts" (some "/usr/bin/glib-mkenums")
    (fun _ => [0x68, 0x69]) (fun _ => 0) (fun _ => 1) cArgs cFS

/-- C6: an invalid pattern in --replace makes the run exit with status
-1 before the writer stage, leaving the filesystem unchanged, whenever
the stages before post-processing succeed. -/
theorem c6_invalid_pattern_exits (eng : RegexEngine) (env : Env) (args : Args) (fs : FS)
    (d tool text : String) (reps : List (String × String))
    (hsd : args.source_dir = some d) (hdir : fs.isdir d = true)
    (htool : env.which_mkenums = some tool)
    (hdec : utf8Decode (env.generator.stdoutBytes (mkCommand tool (get_fhead args.sources)
      fprodTemplate ftailTemplate vheadTemplate vprodTemplate vtailTemplate
      (resolveSources env args))) = some text)
    (hrep : args.replace = some reps)
    (hbad : ∃ pr ∈ reps, eng.compileOk pr.1 pr.2 = false) :
    script_main eng env args fs = Outcome.exited (-1) none fs := by
  have hnone := applyReplaceList_has_bad eng reps text hbad
  simp [script_main, get_template_sections, create_enum_source, postProcess,
    hsd, hdir, htool, hdec, hrep, hnone]

/-- C6 witness: a concrete invocation whose single replacement pattern
is an unbalanced parenthesis. -/
theorem c6_invalid_pattern_exits_witness :
    script_main litEngine cEnv cArgsBadRep cFS = Outcome.exited (-1) none cFS :=
  c6_invalid_pattern_exits litEngine cEnv cArgsBadRep cFS "/src" "/usr/bin/glib-mkenums"
    "hi" [("(", "X")] rfl rfl rfl rfl rfl (by decide)

/-- C7 counterexample: at this concrete invocation the run fails
through the invalid-pattern member of the error taxonomy, yet the
process prints nothing at all before exiting: sys.exit(-1) is reached
with no message on any stream, refuting the claim that every taxonomy
error emits a concise human-readable message to standard error. -/
theorem c7_reporting_counterexample :
    script_main litEngine cEnv cArgsBadRep cFS = Outcome.exited (-1) none cFS := rfl

/-- C7 (amended): every error the script itself raises exits with the
non-zero status -1; the InvalidSourceDir and InvalidOutDir failures
print their concise message with print, that is to standard output
rather than standard error, while the InvalidPattern failure prints no
message at all. -/
theorem c7_error_reporting (eng : RegexEngine) (env : Env) (args : Args) (fs : FS) :
    (∀ d, args.source_dir = some d → fs.isdir d = false →
      script_main eng env args fs = Outcome.exited (-1) (some sourceDirMsg) fs) ∧
    (∀ output dirs, args.out_dir = some dirs → dirs.all fs.isdir = false →
      write_enum_source_file env fs args output = Outcome.exited (-1) (some outDirMsg) fs) ∧
    (∀ reps text, (∃ pr ∈ reps, eng.compileOk pr.1 pr.2 = false) →
      postProcess eng (some reps) text fs = Except.error (Outcome.exited (-1) none fs)) := by
  refine ⟨fun d hsd hdir => ?_, fun output dirs hod hall => ?_, fun reps text hbad => ?_⟩
  · simp [script_main, get_template_sections, create_enum_source, hsd, hdir]
  · simp [write_enum_source_file, hod, hall]
  · simp [postProcess, applyReplaceList_has_bad eng reps text hbad]

/-- C7 witness: the three script-raised error paths at concrete
inputs. -/
theorem c7_error_reporting_witness :
    script_main litEngine cEnv cArgsBadSrc cFS = Outcome.exited (-1) (some sourceDirMsg) cFS ∧
    write_enum_source_file cEnv cFS cArgsBadOut ("t") =
      Outcome.exited (-1) (some outDirMsg) cFS ∧
    postProcess litEngine (some [("(", "X")]) ("t") cFS =
      Except.error (Outcome.exited (-1) none cFS) :=
  ⟨(c7_error_reporting litEngine cEnv cArgsBadSrc cFS).1 "/nosuch" rfl rfl,
   (c7_error_reporting litEngine cEnv cArgsBadOut cFS).2.1 "t" ["/out", "/bad"] rfl (by decide),
   (c7_error_reporting litEngine cEnv cArgsBadRep cFS).2.2 [("(", "X")] "t" (by decide)⟩

/-- Control-flow lemma for the post-processing stage: its result is
either the fixed no-message exit, or a text that does not depend on
the filesystem. -/
theorem postProcess_cases (eng : RegexEngine) (rep : Option (List (String × String)))
    (text : String) :
    (∀ gs : FS, postProcess eng rep text gs = Except.error (Outcome.exited (-1) none gs)) ∨
    (∃ t2, ∀ gs : FS, postProcess eng rep text gs = Except.ok t2) := by
  rcases rep with _ | reps
  · exact Or.inr ⟨text, fun gs => rfl⟩
  · rcases happ : applyReplaceList eng reps text with _ | t2
    · exact Or.inl (fun gs => by simp [postProcess, happ])
    · exact Or.inr ⟨t2, fun gs => by simp [postProcess, happ]⟩

/-- C9: the pipeline is a deterministic function of the invocation
arguments and the generator, so running it a second time over the
filesystem produced by a successful first run succeeds again and
leaves every file with contents identical to those after the first
run: output files are byte-identical across the two runs. -/
theorem c9_pipeline_idempotent (eng : RegexEngine) (env : Env) (args : Args) (fs fs1 : FS)
    (h : script_main eng env args fs = Outcome.success fs1) :
    ∃ fs2, script_main eng env args fs1 = Outcome.success fs2 ∧
      ∀ q, fs2.read q = fs1.read q := by
  rcases hsd : args.source_dir with _ | d
  · simp [script_main, get_template_sections, create_enum_source, hsd] at h
  · cases hdir : fs.isdir d with
    | false => simp [script_main, get_template_sections, create_enum_source, hsd, hdir] at h
    | true =>
      rcases htool : env.which_mkenums with _ | tool
      · simp [script_main, get_template_sections, create_enum_source, hsd, hdir, htool] at h
      · rcases hdec : utf8Decode (env.generator.stdoutBytes (mkCommand tool
            (get_fhead args.sources) fprodTemplate ftailTemplate vheadTemplate
            vprodTemplate vtailTemplate (resolveSources env args))) with _ | text
        · simp [script_main, get_template_sections, create_enum_source,
            hsd, hdir, htool, hdec] at h
        · rcases postProcess_cases eng args.replace text with hpe | ⟨t2, hpo⟩
          · have hrun : script_main eng env args fs = Outcome.exited (-1) none fs := by
              simp [script_main, get_template_sections, create_enum_source,
                hsd, hdir, htool, hdec, hpe fs]
            rw [hrun] at h
            exact absurd h (by simp)
          · have hmain : ∀ gs : FS, gs.isdir d = true →
                script_main eng env args gs = write_enum_source_file env gs args t2 := by
              intro gs hgs
              simp [script_main, get_template_sections, create_enum_source,
                hsd, hgs, htool, hdec, hpo gs]
            rw [hmain fs hdir] at h
            have hdir1 : fs1.isdir d = true := by
              rw [write_enum_source_file_isdir env args fs fs1 t2 h]
              exact hdir
            obtain ⟨fs2, h2, hr⟩ := write_enum_source_file_idem env args fs fs1 t2 h
            exact ⟨fs2, by rw [hmain fs1 hdir1]; exact h2, hr⟩

/-- Filesystem after the concrete first run of the pipeline. -/
def cRun1FS : FS := writeAll ("enums.c") ("hi") ["/out"] cFS

/-- C9 witness: the concrete second run over the filesystem produced
by the first. -/
theorem c9_pipeline_idempotent_witness :
    ∃ fs2, script_main litEngine cEnv cArgs cRun1FS = Outcome.success fs2 ∧
      ∀ q, fs2.read q = cRun1FS.read q :=
  c9_pipeline_idempotent litEngine cEnv cArgs cFS cRun1FS rfl

/-- C10: the captured generator output is decoded as strict UTF-8; a
generator whose output contains the byte 0xFF, which no UTF-8 sequence
contains, makes the run terminate with an uncaught UnicodeDecodeError,
an outcome distinct from every sys.exit outcome of the error taxonomy
of the spec. -/
theorem c10_decode_strict (eng : RegexEngine) (env : Env) (args : Args) (fs : FS)
    (d tool : String) (hsd : args.source_dir = some d) (hdir : fs.isdir d = true)
    (htool : env.which_mkenums = some tool)
    (hbytes : env.generator.stdoutBytes (mkCommand tool (get_fhead args.sources)
      fprodTemplate ftailTemplate vheadTemplate vprodTemplate vtailTemplate
      (resolveSources env args)) = [0xFF]) :
    utf8Decode [0xFF] = none ∧
    script_main eng env args fs = Outcome.crashed unicodeDecodeError fs ∧
    (∀ code msg fsx, Outcome.crashed unicodeDecodeError fs ≠ Outcome.exited code msg fsx) := by
  have hdecn : utf8Decode [0xFF] = none := rfl
  refine ⟨hdecn, ?_, fun code msg fsx hc => Outcome.noConfusion hc⟩
  simp [script_main, get_template_sections, create_enum_source, hsd, hdir, htool, hbytes, hdecn]

/-- C10 witness: a concrete run whose generator emits the single byte
0xFF. -/
theorem c10_decode_strict_witness :
    utf8Decode [0xFF] = none ∧
    script_main litEngine cEnvBadBytes cArgs cFS = Outcome.crashed unicodeDecodeError cFS ∧
    (∀ code msg fsx, Outcome.crashed unicodeDecodeError cFS ≠ Outcome.exited code msg fsx) :=
  c10_decode_strict litEngine cEnvBadBytes cArgs cFS "/src" "/usr/bin/glib-mkenums"
    rfl rfl rfl rfl

end GenerateEnumSource
